import Mathlib

/-!
Shallow embedding of the watershed monitoring engine of the
`consorcio-canalero` repository
(`gee-backend/app/services/monitoring_service.py` and
`gee-backend/app/api/v1/endpoints/monitoring.py`).

Index values, thresholds, areas and timestamps are modelled as rationals;
the remote imagery backend (scene counts, grouped per-class area sums,
geometry area, vectorization output) is modelled as explicit input data,
since the Python code receives those values from the external service.
-/

/-- Per-pixel spectral index values, as produced by `_calculate_indices`:
NDVI, NDWI, MNDWI, NDMI and BSI bands of the composite. -/
structure PixelIndices where
  ndvi : ℚ
  ndwi : ℚ
  mndwi : ℚ
  ndmi : ℚ
  bsi : ℚ
deriving DecidableEq, Repr

/-- The `ClassificationThresholds` dataclass with its default values
(`monitoring_service.py`, lines 38-76). -/
structure ClassificationThresholds where
  mndwi_agua : ℚ := 15/100
  ndwi_agua_alto : ℚ := 35/100
  ndvi_max_agua : ℚ := 1/10
  mndwi_anegado_min : ℚ := -(1/10)
  mndwi_anegado_max : ℚ := 15/100
  ndmi_anegado_min : ℚ := 25/100
  ndvi_anegado_max : ℚ := 3/10
  ndvi_cultivo_sano : ℚ := 4/10
  ndmi_cultivo_min : ℚ := -(1/10)
  ndmi_cultivo_max : ℚ := 4/10
  bsi_suelo_desnudo : ℚ := 5/100
  ndvi_suelo_max : ℚ := 15/100
  mndwi_suelo_max : ℚ := -(2/10)
  ndvi_rastrojo_max : ℚ := 4/10
deriving DecidableEq, Repr

/-- The default thresholds used when the caller passes none. -/
def defaultThresholds : ClassificationThresholds := {}

/-- Class mask AGUA EN SUPERFICIE (class id 2):
`mndwi.gt(th.mndwi_agua).Or(ndwi.gt(th.ndwi_agua_alto).And(ndvi.lt(th.ndvi_max_agua)))`. -/
def agua (th : ClassificationThresholds) (p : PixelIndices) : Bool :=
  decide (p.mndwi > th.mndwi_agua) ||
    (decide (p.ndwi > th.ndwi_agua_alto) && decide (p.ndvi < th.ndvi_max_agua))

/-- Class mask LOTE ANEGADO (class id 3): pixels not already water, with
either a moderate MNDWI band and low NDVI, or a high NDMI and low NDVI. -/
def anegado (th : ClassificationThresholds) (p : PixelIndices) : Bool :=
  !agua th p &&
    ((decide (p.mndwi > th.mndwi_anegado_min) &&
        decide (p.mndwi < th.mndwi_anegado_max) &&
        decide (p.ndvi < th.ndvi_anegado_max)) ||
      (decide (p.ndmi > th.ndmi_anegado_min) && decide (p.ndvi < th.ndvi_anegado_max)))

/-- Class mask CULTIVO SANO (class id 0): not water, not waterlogged, high
NDVI and NDMI inside the normal moisture band. -/
def cultivo_sano (th : ClassificationThresholds) (p : PixelIndices) : Bool :=
  !agua th p && !anegado th p &&
    decide (p.ndvi > th.ndvi_cultivo_sano) &&
    decide (p.ndmi > th.ndmi_cultivo_min) &&
    decide (p.ndmi < th.ndmi_cultivo_max)

/-- Class mask SUELO DESNUDO (class id 4): none of the earlier classes,
positive BSI, very low NDVI and clearly negative MNDWI. -/
def suelo_desnudo (th : ClassificationThresholds) (p : PixelIndices) : Bool :=
  !agua th p && !anegado th p && !cultivo_sano th p &&
    decide (p.bsi > th.bsi_suelo_desnudo) &&
    decide (p.ndvi < th.ndvi_suelo_max) &&
    decide (p.mndwi < th.mndwi_suelo_max)

/-- Class mask RASTROJO (class id 1): the catch-all complement of the other
four masks. -/
def rastrojo (th : ClassificationThresholds) (p : PixelIndices) : Bool :=
  !agua th p && !anegado th p && !cultivo_sano th p && !suelo_desnudo th p

/-- One `.where(mask, value)` step of the ee.Image update chain: keeps the
accumulated value unless the mask is set. -/
def whereUpd (cond : Bool) (v : ℕ) (acc : ℕ) : ℕ :=
  if cond then v else acc

/-- The classified value of a single valid pixel, following the source
chain `ee.Image(1).where(cultivo_sano, 0).where(rastrojo, 1).where(agua, 2)
.where(anegado, 3).where(suelo_desnudo, 4)` (later steps override earlier
ones where their mask is set). -/
def classifyPixel (th : ClassificationThresholds) (p : PixelIndices) : ℕ :=
  whereUpd (suelo_desnudo th p) 4
    (whereUpd (anegado th p) 3
      (whereUpd (agua th p) 2
        (whereUpd (rastrojo th p) 1
          (whereUpd (cultivo_sano th p) 0 1))))

/-- Claim C1: over every index vector and every thresholds value, the five
class masks built in `classify_parcels` are pairwise mutually exclusive and
jointly exhaustive: exactly one of the five masks is set on each valid
pixel. -/
theorem parcel_classes_exhaustive_exclusive
    (th : ClassificationThresholds) (p : PixelIndices) :
    [agua th p, anegado th p, cultivo_sano th p, suelo_desnudo th p,
      rastrojo th p].count true = 1 := by
  cases ha : agua th p with
  | true =>
    have hb : anegado th p = false := by simp [anegado, ha]
    have hc : cultivo_sano th p = false := by simp [cultivo_sano, ha]
    have hd : suelo_desnudo th p = false := by simp [suelo_desnudo, ha]
    have he : rastrojo th p = false := by simp [rastrojo, ha]
    simp [ha, hb, hc, hd, he]
  | false =>
    cases hb : anegado th p with
    | true =>
      have hc : cultivo_sano th p = false := by simp [cultivo_sano, hb]
      have hd : suelo_desnudo th p = false := by simp [suelo_desnudo, hb]
      have he : rastrojo th p = false := by simp [rastrojo, hb]
      simp [ha, hb, hc, hd, he]
    | false =>
      cases hc : cultivo_sano th p with
      | true =>
        have hd : suelo_desnudo th p = false := by simp [suelo_desnudo, hc]
        have he : rastrojo th p = false := by simp [rastrojo, hc]
        simp [ha, hb, hc, hd, he]
      | false =>
        cases hd : suelo_desnudo th p with
        | true =>
          have he : rastrojo th p = false := by simp [rastrojo, hd]
          simp [ha, hb, hc, hd, he]
        | false =>
          have he : rastrojo th p = true := by simp [rastrojo, ha, hb, hc, hd]
          simp [ha, hb, hc, hd, he]

/-- Claim C2: under the default thresholds, each synthetic index vector of
the spec is mapped to the expected class id (2 = Surface Water,
3 = Waterlogged Field, 0 = Healthy Crop, 4 = Bare Soil), and every pixel
matching none of the first four masks is classified 1 = Stubble/Residue.
Unspecified indices of a synthetic vector are zero. -/
theorem classifier_synthetic_pixels :
    classifyPixel defaultThresholds
      { ndvi := 0, ndwi := 0, mndwi := 3/10, ndmi := 0, bsi := 0 } = 2 ∧
    classifyPixel defaultThresholds
      { ndvi := 1/10, ndwi := 0, mndwi := 0, ndmi := 3/10, bsi := 0 } = 3 ∧
    classifyPixel defaultThresholds
      { ndvi := 6/10, ndwi := 0, mndwi := 0, ndmi := 1/10, bsi := 0 } = 0 ∧
    classifyPixel defaultThresholds
      { ndvi := 5/100, ndwi := 0, mndwi := -(3/10), ndmi := 0, bsi := 1/10 } = 4 ∧
    (∀ th : ClassificationThresholds, ∀ p : PixelIndices,
      agua th p = false → anegado th p = false → cultivo_sano th p = false →
      suelo_desnudo th p = false → classifyPixel th p = 1) := by
  refine ⟨?_, ?_, ?_, ?_, ?_⟩
  · norm_num [classifyPixel, whereUpd, agua, anegado, cultivo_sano, suelo_desnudo,
      rastrojo, defaultThresholds]
  · norm_num [classifyPixel, whereUpd, agua, anegado, cultivo_sano, suelo_desnudo,
      rastrojo, defaultThresholds]
  · norm_num [classifyPixel, whereUpd, agua, anegado, cultivo_sano, suelo_desnudo,
      rastrojo, defaultThresholds]
  · norm_num [classifyPixel, whereUpd, agua, anegado, cultivo_sano, suelo_desnudo,
      rastrojo, defaultThresholds]
  · intro th p ha hb hc hd
    simp [classifyPixel, rastrojo, whereUpd, ha, hb, hc, hd]

/-- Witness for the universally quantified part of the synthetic-pixel
theorem, at a concrete pixel that matches none of the first four masks. -/
theorem classifier_synthetic_pixels_witness :
    classifyPixel defaultThresholds
      { ndvi := 35/100, ndwi := 0, mndwi := 0, ndmi := 0, bsi := 0 } = 1 :=
  classifier_synthetic_pixels.2.2.2.2 defaultThresholds
    { ndvi := 35/100, ndwi := 0, mndwi := 0, ndmi := 0, bsi := 0 }
    (by norm_num [agua, defaultThresholds])
    (by norm_num [anegado, agua, defaultThresholds])
    (by norm_num [cultivo_sano, agua, anegado, defaultThresholds])
    (by norm_num [suelo_desnudo, agua, anegado, cultivo_sano, defaultThresholds])

/-- The trend label computed at the end of `detect_changes` from the summed
problematic-percentage delta (Waterlogged delta plus Surface Water delta),
following the if/elif chain of lines 662-676. -/
def tendencia (cambio_problematico : ℚ) : String :=
  if cambio_problematico > 5 then "empeoramiento_significativo"
  else if cambio_problematico > 1 then "empeoramiento_leve"
  else if cambio_problematico < -5 then "mejora_significativa"
  else if cambio_problematico < -1 then "mejora_leve"
  else "estable"

/-- Claim C3: the trend label is a total function of the summed
problematic-percentage delta; the four thresholds 5, 1, -1, -5 partition
the line into five regions with no gaps (coverage) and no overlaps
(pairwise disjointness), each region getting its label, and the spec
boundary cases evaluate exactly as stated. -/
theorem detect_changes_trend_partition (x : ℚ) :
    tendencia (501/100) = "empeoramiento_significativo" ∧
    tendencia 5 = "empeoramiento_leve" ∧
    tendencia 1 = "estable" ∧
    tendencia (-(501/100)) = "mejora_significativa" ∧
    (5 < x → tendencia x = "empeoramiento_significativo") ∧
    (1 < x ∧ x ≤ 5 → tendencia x = "empeoramiento_leve") ∧
    (-1 ≤ x ∧ x ≤ 1 → tendencia x = "estable") ∧
    (-5 ≤ x ∧ x < -1 → tendencia x = "mejora_leve") ∧
    (x < -5 → tendencia x = "mejora_significativa") ∧
    (5 < x ∨ (1 < x ∧ x ≤ 5) ∨ (-1 ≤ x ∧ x ≤ 1) ∨ (-5 ≤ x ∧ x < -1) ∨ x < -5) ∧
    ¬(5 < x ∧ 1 < x ∧ x ≤ 5) ∧
    ¬(5 < x ∧ -1 ≤ x ∧ x ≤ 1) ∧
    ¬(5 < x ∧ -5 ≤ x ∧ x < -1) ∧
    ¬(5 < x ∧ x < -5) ∧
    ¬((1 < x ∧ x ≤ 5) ∧ -1 ≤ x ∧ x ≤ 1) ∧
    ¬((1 < x ∧ x ≤ 5) ∧ -5 ≤ x ∧ x < -1) ∧
    ¬((1 < x ∧ x ≤ 5) ∧ x < -5) ∧
    ¬((-1 ≤ x ∧ x ≤ 1) ∧ -5 ≤ x ∧ x < -1) ∧
    ¬((-1 ≤ x ∧ x ≤ 1) ∧ x < -5) ∧
    ¬((-5 ≤ x ∧ x < -1) ∧ x < -5) := by
  refine ⟨?_, ?_, ?_, ?_, ?_, ?_, ?_, ?_, ?_, ?_, ?_, ?_, ?_, ?_, ?_, ?_, ?_, ?_, ?_, ?_⟩
  · norm_num [tendencia]
  · norm_num [tendencia]
  · norm_num [tendencia]
  · norm_num [tendencia]
  · intro h
    rw [tendencia, if_pos h]
  · rintro ⟨h1, h2⟩
    rw [tendencia, if_neg (by linarith), if_pos h1]
  · rintro ⟨h1, h2⟩
    rw [tendencia, if_neg (by linarith), if_neg (by linarith), if_neg (by linarith),
      if_neg (by linarith)]
  · rintro ⟨h1, h2⟩
    rw [tendencia, if_neg (by linarith), if_neg (by linarith), if_neg (by linarith),
      if_pos h2]
  · intro h
    rw [tendencia, if_neg (by linarith), if_neg (by linarith), if_pos h]
  · by_cases h1 : 5 < x
    · exact Or.inl h1
    by_cases h2 : 1 < x
    · exact Or.inr (Or.inl ⟨h2, by linarith⟩)
    by_cases h3 : -1 ≤ x
    · exact Or.inr (Or.inr (Or.inl ⟨h3, by linarith⟩))
    by_cases h4 : -5 ≤ x
    · exact Or.inr (Or.inr (Or.inr (Or.inl ⟨h4, by linarith⟩)))
    · exact Or.inr (Or.inr (Or.inr (Or.inr (by linarith))))
  · rintro ⟨h1, h2, h3⟩
    linarith
  · rintro ⟨h1, h2, h3⟩
    linarith
  · rintro ⟨h1, h2, h3⟩
    linarith
  · rintro ⟨h1, h2⟩
    linarith
  · rintro ⟨⟨h1, h2⟩, h3, h4⟩
    linarith
  · rintro ⟨⟨h1, h2⟩, h3, h4⟩
    linarith
  · rintro ⟨⟨h1, h2⟩, h3⟩
    linarith
  · rintro ⟨⟨h1, h2⟩, h3, h4⟩
    linarith
  · rintro ⟨⟨h1, h2⟩, h3⟩
    linarith
  · rintro ⟨⟨h1, h2⟩, h3⟩
    linarith

/-- Witness for the trend theorem: the slight-worsening implication applied
at the concrete delta 2. -/
theorem detect_changes_trend_partition_witness :
    tendencia 2 = "empeoramiento_leve" :=
  (detect_changes_trend_partition 2).2.2.2.2.2.1 ⟨by norm_num, by norm_num⟩

/-- The `AlertConfig` dataclass with its default values
(`monitoring_service.py`, lines 79-89). -/
structure AlertConfig where
  cambio_anegado_pct : ℚ := 5
  cambio_agua_pct : ℚ := 3
  anegado_critico_pct : ℚ := 20
  agua_critico_pct : ℚ := 10
deriving DecidableEq, Repr

/-- The default alert configuration built in the service constructor. -/
def defaultAlertConfig : AlertConfig := {}

/-- The per-watershed summary fields read by alert generation. -/
structure CuencaResumenInput where
  nombre : String
  porcentaje_problematico : ℚ
  area_anegada_ha : ℚ
  area_con_agua_ha : ℚ
deriving DecidableEq, Repr

/-- An alert record; the formatted message text is omitted, the structured
fields that drive ordering and identification are kept. -/
structure Alerta where
  tipo : String
  severidad : String
  cuenca : String
  accion_sugerida : String
deriving DecidableEq, Repr

/-- The high-severity absolute alert for a watershed. -/
def alertaCritica (nombre : String) : Alerta :=
  { tipo := "area_critica", severidad := "alta", cuenca := nombre,
    accion_sugerida := "Inspeccionar sistema de drenaje de la cuenca" }

/-- The medium-severity absolute alert for a watershed. -/
def alertaElevada (nombre : String) : Alerta :=
  { tipo := "area_elevada", severidad := "media", cuenca := nombre,
    accion_sugerida := "Monitorear evolucion en proximos dias" }

/-- The absolute-threshold alert produced for one watershed by
`_generate_alerts_from_results` (lines 891-920): high severity above the
critical threshold, else medium severity above the fixed 10, else none. -/
def mkAlertaCuenca (cfg : AlertConfig) (c : CuencaResumenInput) : Option Alerta :=
  if c.porcentaje_problematico > cfg.anegado_critico_pct then
    some (alertaCritica c.nombre)
  else if c.porcentaje_problematico > 10 then
    some (alertaElevada c.nombre)
  else none

/-- The severity key `severidad_orden = {"alta": 0, "media": 1, "baja": 2}`
with default 3 for unknown severities. -/
def severidadOrden (s : String) : ℕ :=
  if s = "alta" then 0 else if s = "media" then 1 else if s = "baja" then 2 else 3

/-- Comparison used by the severity sort. -/
def alertaLe (a b : Alerta) : Prop :=
  severidadOrden a.severidad ≤ severidadOrden b.severidad

instance : DecidableRel alertaLe :=
  fun a b =>
    inferInstanceAs (Decidable (severidadOrden a.severidad ≤ severidadOrden b.severidad))

instance : IsTotal Alerta alertaLe :=
  ⟨fun a b => Nat.le_total (severidadOrden a.severidad) (severidadOrden b.severidad)⟩

instance : IsTrans Alerta alertaLe :=
  ⟨fun _ _ _ => Nat.le_trans⟩

/-- The alert list of `_generate_alerts_from_results`: one optional alert
per watershed in input order, then `alertas.sort(key=severidad_orden)`;
the Python sort is stable, modelled as a stable insertion sort. -/
def generateAlertsFromResults (cfg : AlertConfig) (cuencas : List CuencaResumenInput) :
    List Alerta :=
  List.insertionSort alertaLe (cuencas.filterMap (mkAlertaCuenca cfg))

/-- Inserting an alert commutes with filtering on a fixed severity: the
inserted alert lands in front of the equal-severity block because the
insertion only passes strictly smaller keys. -/
theorem filter_orderedInsert_severidad (s : String) (a : Alerta) (l : List Alerta) :
    (List.orderedInsert alertaLe a l).filter (fun b => b.severidad = s) =
      if a.severidad = s then a :: l.filter (fun b => b.severidad = s)
      else l.filter (fun b => b.severidad = s) := by
  induction l with
  | nil =>
    by_cases h : a.severidad = s <;> simp [List.orderedInsert, h]
  | cons b bs ih =>
    rw [List.orderedInsert]
    by_cases hle : alertaLe a b
    · rw [if_pos hle]
      by_cases h : a.severidad = s <;> simp [List.filter_cons, h]
    · rw [if_neg hle]
      by_cases h : a.severidad = s
      · have hbs : ¬(b.severidad = s) := by
          intro hb
          apply hle
          show severidadOrden a.severidad ≤ severidadOrden b.severidad
          rw [h, hb]
        simp [List.filter_cons, hbs, ih, h]
      · by_cases hb : b.severidad = s <;> simp [List.filter_cons, hb, ih, h]

/-- The stable severity sort preserves, for each severity, the subsequence
of alerts of that severity. -/
theorem filter_sort_severidad (s : String) (l : List Alerta) :
    (List.insertionSort alertaLe l).filter (fun b => b.severidad = s) =
      l.filter (fun b => b.severidad = s) := by
  induction l with
  | nil => rfl
  | cons a l ih =>
    rw [List.insertionSort, filter_orderedInsert_severidad]
    by_cases h : a.severidad = s <;> simp [List.filter_cons, h, ih]

/-- Claim C4: for each watershed of the input results, alert generation
emits exactly one high alert above the critical threshold (default 20),
else exactly one medium alert above the fixed 10, else none; and the
returned list is sorted by severity (alta, media, baja) with the relative
order of equal-severity alerts preserved, for every input order. -/
theorem alerts_thresholds_sorted_stable (cfg : AlertConfig)
    (cuencas : List CuencaResumenInput) :
    defaultAlertConfig.anegado_critico_pct = 20 ∧
    (∀ c : CuencaResumenInput, c.porcentaje_problematico > cfg.anegado_critico_pct →
      mkAlertaCuenca cfg c = some (alertaCritica c.nombre)) ∧
    (∀ c : CuencaResumenInput, ¬c.porcentaje_problematico > cfg.anegado_critico_pct →
      c.porcentaje_problematico > 10 →
      mkAlertaCuenca cfg c = some (alertaElevada c.nombre)) ∧
    (∀ c : CuencaResumenInput, ¬c.porcentaje_problematico > cfg.anegado_critico_pct →
      ¬c.porcentaje_problematico > 10 → mkAlertaCuenca cfg c = none) ∧
    List.Sorted alertaLe (generateAlertsFromResults cfg cuencas) ∧
    List.Perm (generateAlertsFromResults cfg cuencas)
      (cuencas.filterMap (mkAlertaCuenca cfg)) ∧
    (∀ s : String,
      (generateAlertsFromResults cfg cuencas).filter (fun a => a.severidad = s) =
        (cuencas.filterMap (mkAlertaCuenca cfg)).filter (fun a => a.severidad = s)) := by
  refine ⟨rfl, ?_, ?_, ?_, ?_, ?_, ?_⟩
  · intro c h
    rw [mkAlertaCuenca, if_pos h]
  · intro c h1 h2
    rw [mkAlertaCuenca, if_neg h1, if_pos h2]
  · intro c h1 h2
    rw [mkAlertaCuenca, if_neg h1, if_neg h2]
  · exact List.sorted_insertionSort alertaLe _
  · exact List.perm_insertionSort alertaLe _
  · intro s
    exact filter_sort_severidad s _

/-- Witness for the alert theorem: the critical branch of the per-watershed
alert at a concrete watershed with 25 percent problematic area. -/
theorem alerts_thresholds_sorted_stable_witness :
    mkAlertaCuenca defaultAlertConfig
      { nombre := "candil", porcentaje_problematico := 25, area_anegada_ha := 3,
        area_con_agua_ha := 2 } =
      some (alertaCritica "candil") :=
  (alerts_thresholds_sorted_stable defaultAlertConfig []).2.1
    { nombre := "candil", porcentaje_problematico := 25, area_anegada_ha := 3,
      area_con_agua_ha := 2 }
    (by norm_num [defaultAlertConfig])

/-- The monitoring summary payload held by the dashboard cache; only the
presence of an error key matters to the caching logic, the rest of the
dict is abstracted to an opaque content string. -/
structure DashboardPayload where
  hasError : Bool
  contenido : String
deriving DecidableEq, Repr

/-- The module-level `_dashboard_cache` dict of
`endpoints/monitoring.py`: one data slot, an expiry timestamp and the
configured ttl. -/
structure DashboardCache where
  data : Option DashboardPayload
  expires_at : ℚ
  ttl_seconds : ℚ
deriving DecidableEq, Repr

/-- The initial module-level cache value:
`{"data": None, "expires_at": 0, "ttl_seconds": 300}`. -/
def dashboardCacheInit : DashboardCache :=
  { data := none, expires_at := 0, ttl_seconds := 300 }

/-- The refresh path of `_get_cached_or_fetch`: the fresh summary is
returned with from_cache false, and the slot and expiry are replaced only
when the summary carries no error. -/
def cacheRefresh (cache : DashboardCache) (now : ℚ) (summary : DashboardPayload) :
    (DashboardPayload × Bool) × DashboardCache :=
  if summary.hasError then ((summary, false), cache)
  else ((summary, false),
    { cache with data := some summary, expires_at := now + cache.ttl_seconds })

/-- The whole `_get_cached_or_fetch` read: return the cached payload with
from_cache true when the slot is filled and unexpired, otherwise run the
refresh path; the fresh summary produced by `get_monitoring_summary` is an
explicit input. -/
def getCachedOrFetch (cache : DashboardCache) (now : ℚ) (fetched : DashboardPayload) :
    (DashboardPayload × Bool) × DashboardCache :=
  match cache.data with
  | some d =>
    if now < cache.expires_at then ((d, true), cache)
    else cacheRefresh cache now fetched
  | none => cacheRefresh cache now fetched

/-- Claim C5: a read with a stored payload before expiry returns that
payload unchanged with from_cache true and leaves the state alone; a read
at or after expiry, or with an empty slot, recomputes and on success
replaces the slot and sets the expiry to now plus the ttl (300 in the
initial cache); a failed recomputation leaves the cache state unmodified. -/
theorem dashboard_cache_behavior (cache : DashboardCache) (now : ℚ)
    (fetched d : DashboardPayload) :
    dashboardCacheInit.ttl_seconds = 300 ∧
    (cache.data = some d → now < cache.expires_at →
      getCachedOrFetch cache now fetched = ((d, true), cache)) ∧
    (cache.expires_at ≤ now → fetched.hasError = false →
      getCachedOrFetch cache now fetched = ((fetched, false),
        { cache with data := some fetched,
                     expires_at := now + cache.ttl_seconds })) ∧
    (cache.data = none → fetched.hasError = false →
      getCachedOrFetch cache now fetched = ((fetched, false),
        { cache with data := some fetched,
                     expires_at := now + cache.ttl_seconds })) ∧
    ((cache.expires_at ≤ now ∨ cache.data = none) → fetched.hasError = true →
      getCachedOrFetch cache now fetched = ((fetched, false), cache)) := by
  refine ⟨rfl, ?_, ?_, ?_, ?_⟩
  · intro h1 h2
    simp only [getCachedOrFetch, h1, if_pos h2]
  · intro h1 h2
    cases hc : cache.data with
    | none => simp [getCachedOrFetch, hc, cacheRefresh, h2]
    | some d0 =>
      simp [getCachedOrFetch, hc, not_lt.mpr h1, cacheRefresh, h2]
  · intro h1 h2
    simp [getCachedOrFetch, h1, cacheRefresh, h2]
  · intro h1 h2
    rcases h1 with h1 | h1
    · cases hc : cache.data with
      | none => simp [getCachedOrFetch, hc, cacheRefresh, h2]
      | some d0 =>
        simp [getCachedOrFetch, hc, not_lt.mpr h1, cacheRefresh, h2]
    · simp [getCachedOrFetch, h1, cacheRefresh, h2]

/-- Witness for the cache theorem: a concrete unexpired read returns the
stored payload with from_cache true. -/
theorem dashboard_cache_behavior_witness :
    getCachedOrFetch
      { data := some { hasError := false, contenido := "resumen" },
        expires_at := 10, ttl_seconds := 300 }
      3 { hasError := false, contenido := "fresco" } =
      (({ hasError := false, contenido := "resumen" }, true),
        { data := some { hasError := false, contenido := "resumen" },
          expires_at := 10, ttl_seconds := 300 }) :=
  (dashboard_cache_behavior
      { data := some { hasError := false, contenido := "resumen" },
        expires_at := 10, ttl_seconds := 300 }
      3 { hasError := false, contenido := "fresco" }
      { hasError := false, contenido := "resumen" }).2.1 rfl (by norm_num)

/-- Rounding to two decimals, as `round(x, 2)` in the source (ties at the
half are immaterial to the claims). -/
def round2 (x : ℚ) : ℚ :=
  (round (x * 100) : ℚ) / 100

/-- The `class_names` lookup with its `clase_<id>` fallback. -/
def className (class_id : ℕ) : String :=
  if class_id = 0 then "cultivo_sano"
  else if class_id = 1 then "rastrojo"
  else if class_id = 2 then "agua_superficie"
  else if class_id = 3 then "lote_anegado"
  else if class_id = 4 then "suelo_desnudo"
  else "clase_" ++ toString class_id

/-- The `class_labels` lookup, defaulting to the class name. -/
def classLabel (class_id : ℕ) : String :=
  if class_id = 0 then "Cultivo Sano"
  else if class_id = 1 then "Rastrojo"
  else if class_id = 2 then "Agua en Superficie"
  else if class_id = 3 then "Lote Anegado"
  else if class_id = 4 then "Suelo Desnudo"
  else className class_id

/-- The `class_colors` lookup with its grey fallback. -/
def classColor (class_id : ℕ) : String :=
  if class_id = 0 then "#2ECC71"
  else if class_id = 1 then "#F39C12"
  else if class_id = 2 then "#3498DB"
  else if class_id = 3 then "#E74C3C"
  else if class_id = 4 then "#95A5A6"
  else "#999999"

/-- One entry of the per-class `clases` dict. -/
structure ClaseStats where
  hectareas : ℚ
  porcentaje : ℚ
  label : String
  color : String
  class_id : ℕ

/-- The mutable `stats_resumen` accumulator of the classification loop. -/
structure StatsResumen where
  area_productiva_ha : ℚ
  area_vulnerable_ha : ℚ
  area_agua_ha : ℚ
  area_afectada_ha : ℚ
  area_suelo_desnudo_ha : ℚ

/-- All-zero initial accumulator. -/
def initStatsResumen : StatsResumen :=
  { area_productiva_ha := 0, area_vulnerable_ha := 0, area_agua_ha := 0,
    area_afectada_ha := 0, area_suelo_desnudo_ha := 0 }

/-- One step of the loop over `groups`: store the area of the matching
summary field (assignment, not accumulation, as in the source). -/
def updateResumen (st : StatsResumen) (g : ℕ × ℚ) : StatsResumen :=
  let area_ha := g.2 / 10000
  if g.1 = 0 then { st with area_productiva_ha := area_ha }
  else if g.1 = 1 then { st with area_vulnerable_ha := area_ha }
  else if g.1 = 2 then { st with area_agua_ha := area_ha }
  else if g.1 = 3 then { st with area_afectada_ha := area_ha }
  else if g.1 = 4 then { st with area_suelo_desnudo_ha := area_ha }
  else st

/-- The `clases` entry built for one reducer group (class id, summed area
in square meters). -/
def claseEntry (area_total : ℚ) (g : ℕ × ℚ) : String × ClaseStats :=
  let area_ha := g.2 / 10000
  let porcentaje := if area_total > 0 then area_ha / area_total * 100 else 0
  (className g.1,
    { hectareas := round2 area_ha, porcentaje := round2 porcentaje,
      label := classLabel g.1, color := classColor g.1, class_id := g.1 })

/-- The `clases` dict in loop order (the grouped reducer emits one group
per distinct class id). -/
def buildClases (area_total : ℚ) (groups : List (ℕ × ℚ)) : List (String × ClaseStats) :=
  groups.map (claseEntry area_total)

/-- The `resumen` block of the response. -/
structure ResumenOut where
  area_productiva_ha : ℚ
  area_vulnerable_ha : ℚ
  area_con_agua_ha : ℚ
  area_anegada_ha : ℚ
  area_suelo_desnudo_ha : ℚ
  area_problematica_ha : ℚ
  porcentaje_problematico : ℚ

/-- The subset of thresholds echoed under `parametros.umbrales`. -/
structure UmbralesEcho where
  mndwi_agua : ℚ
  ndwi_agua_alto : ℚ
  mndwi_anegado_min : ℚ
  ndmi_anegado_min : ℚ
  ndvi_cultivo_sano : ℚ
  bsi_suelo_desnudo : ℚ

/-- Builds the `umbrales` echo from the thresholds in use. -/
def echoUmbrales (th : ClassificationThresholds) : UmbralesEcho :=
  { mndwi_agua := th.mndwi_agua, ndwi_agua_alto := th.ndwi_agua_alto,
    mndwi_anegado_min := th.mndwi_anegado_min,
    ndmi_anegado_min := th.ndmi_anegado_min,
    ndvi_cultivo_sano := th.ndvi_cultivo_sano,
    bsi_suelo_desnudo := th.bsi_suelo_desnudo }

/-- The `parametros` block of the response. -/
structure Parametros where
  start_date : String
  end_date : String
  max_cloud : ℕ
  layer_name : Option String
  umbrales : UmbralesEcho

/-- The successful classification response; the remote tile url block is a
pure visualization side channel and is not part of the classification
result, so it is not modelled. -/
structure ClassificationResponse where
  metodo : String
  area_total_ha : ℚ
  clases : List (String × ClaseStats)
  resumen : ResumenOut
  imagenes_procesadas : ℕ
  parametros : Parametros
  fecha_analisis : ℚ
  geojson : Option (List ℕ)
  geojson_warning : Option String
  geojson_error : Option String

/-- Caller-supplied arguments of `classify_parcels`. -/
structure ClassifyParams where
  start_date : String
  end_date : String
  layer_name : Option String
  max_cloud : ℕ
  thresholds : ClassificationThresholds

/-- Values computed remotely by the imagery backend for one invocation:
number of usable scenes, grouped per-class area sums in square meters,
geometry area in square meters, the vectorization outcome (feature list, or
the exception message of a failed `getInfo`), and the wall-clock reading
used for `fecha_analisis`. -/
structure ExternalData where
  img_count : ℕ
  groups : List (ℕ × ℚ)
  area_total_m2 : ℚ
  vector_features : Except String (List ℕ)
  now : ℚ

/-- The error dict returned when no Sentinel-2 scene qualifies
(`classify_parcels`, lines 275-280), as ordered key/value pairs. -/
def noImageryResponse (start_date end_date : String) : List (String × String) :=
  [("error", "No se encontraron imagenes Sentinel-2 con pocas nubes"),
   ("sugerencia", "Intenta aumentar el rango de fechas o el porcentaje de nubes"),
   ("start_date", start_date),
   ("end_date", end_date)]

/-- The error dict returned for an unknown layer name (lines 256-259). -/
def layerNotFoundResponse (layer_name : String) : List (String × String) :=
  [("error", "Capa " ++ layer_name ++ " no encontrada"),
   ("capas_disponibles", "zona, candil, ml, noroeste, norte")]

/-- The geojson outcome: included below the 2000-feature cap, replaced by
the oversize warning at or above it, or an error message when the remote
call raised. -/
def geoPayload (vf : Except String (List ℕ)) :
    Option (List ℕ) × Option String × Option String :=
  match vf with
  | Except.ok features =>
    if features.length < 2000 then (some features, none, none)
    else (none, some "GeoJSON muy grande, no incluido", none)
  | Except.error e => (none, none, some e)

/-- The main body of `classify_parcels` after geometry resolution: the
NoImagery branch, the area aggregation, the summary roll-up and the
geojson handling. -/
def classifyParcelsBody (p : ClassifyParams) (e : ExternalData) :
    Except (List (String × String)) ClassificationResponse :=
  if e.img_count = 0 then
    Except.error (noImageryResponse p.start_date p.end_date)
  else
    let area_total := e.area_total_m2 / 10000
    let stats := e.groups.foldl updateResumen initStatsResumen
    let area_problematica := stats.area_agua_ha + stats.area_afectada_ha
    let pct_problematico :=
      if area_total > 0 then area_problematica / area_total * 100 else 0
    let geo := geoPayload e.vector_features
    Except.ok
      { metodo := "clasificacion_parcelas_multiindice"
        area_total_ha := round2 area_total
        clases := buildClases area_total e.groups
        resumen :=
          { area_productiva_ha := round2 stats.area_productiva_ha
            area_vulnerable_ha := round2 stats.area_vulnerable_ha
            area_con_agua_ha := round2 stats.area_agua_ha
            area_anegada_ha := round2 stats.area_afectada_ha
            area_suelo_desnudo_ha := round2 stats.area_suelo_desnudo_ha
            area_problematica_ha := round2 area_problematica
            porcentaje_problematico := round2 pct_problematico }
        imagenes_procesadas := e.img_count
        parametros :=
          { start_date := p.start_date, end_date := p.end_date,
            max_cloud := p.max_cloud, layer_name := p.layer_name,
            umbrales := echoUmbrales p.thresholds }
        fecha_analisis := e.now
        geojson := geo.1
        geojson_warning := geo.2.1
        geojson_error := geo.2.2 }

/-- The geometry-resolution wrapper of `classify_parcels`: a named layer
must be the zone or one of the four watersheds, otherwise the layer error
dict is returned; caller geometries and the default zone both proceed to
the body. -/
def classifyParcels (p : ClassifyParams) (e : ExternalData) :
    Except (List (String × String)) ClassificationResponse :=
  match p.layer_name with
  | some l =>
    if l = "zona" ∨ l ∈ ["candil", "ml", "noroeste", "norte"] then
      classifyParcelsBody p e
    else Except.error (layerNotFoundResponse l)
  | none => classifyParcelsBody p e

/-- Resolvability of the requested layer, the precondition under which the
body runs. -/
def layerResolvable (p : ClassifyParams) : Prop :=
  match p.layer_name with
  | some l => l = "zona" ∨ l ∈ ["candil", "ml", "noroeste", "norte"]
  | none => True

/-- Parameters of the concrete NoImagery run used as counterexample. -/
def noImageryParams : ClassifyParams :=
  { start_date := "2024-01-01", end_date := "2024-01-31", layer_name := none,
    max_cloud := 30, thresholds := defaultThresholds }

/-- External data of the concrete NoImagery run: zero qualifying scenes. -/
def noImageryExternal : ExternalData :=
  { img_count := 0, groups := [], area_total_m2 := 0,
    vector_features := Except.ok [], now := 0 }

/-- Claim C6 counterexample: on a concrete zero-scene run the returned
structured error carries only the keys error, sugerencia, start_date and
end_date; contrary to the claim it includes neither the max cloud
percentage nor any region key. -/
theorem no_imagery_missing_params_counterexample :
    classifyParcels noImageryParams noImageryExternal =
      Except.error (noImageryResponse "2024-01-01" "2024-01-31") ∧
    (noImageryResponse "2024-01-01" "2024-01-31").map Prod.fst =
      ["error", "sugerencia", "start_date", "end_date"] ∧
    "max_cloud" ∉ (noImageryResponse "2024-01-01" "2024-01-31").map Prod.fst ∧
    "region" ∉ (noImageryResponse "2024-01-01" "2024-01-31").map Prod.fst ∧
    "layer_name" ∉ (noImageryResponse "2024-01-01" "2024-01-31").map Prod.fst := by
  refine ⟨rfl, rfl, ?_, ?_, ?_⟩ <;> decide

/-- Claim C6 (amended): whenever zero scenes qualify, `classify_parcels`
returns a structured recoverable error value (never an unhandled fault)
that carries the original start and end dates and a relaxation suggestion;
it does not carry the region or the max cloud parameter. -/
theorem no_imagery_structured_error (p : ClassifyParams) (e : ExternalData)
    (hl : layerResolvable p) (h0 : e.img_count = 0) :
    classifyParcels p e =
      Except.error (noImageryResponse p.start_date p.end_date) ∧
    ("start_date", p.start_date) ∈ noImageryResponse p.start_date p.end_date ∧
    ("end_date", p.end_date) ∈ noImageryResponse p.start_date p.end_date ∧
    "max_cloud" ∉ (noImageryResponse p.start_date p.end_date).map Prod.fst ∧
    "region" ∉ (noImageryResponse p.start_date p.end_date).map Prod.fst ∧
    "layer_name" ∉ (noImageryResponse p.start_date p.end_date).map Prod.fst := by
  refine ⟨?_, by simp [noImageryResponse], by simp [noImageryResponse],
    by simp [noImageryResponse], by simp [noImageryResponse],
    by simp [noImageryResponse]⟩
  cases hln : p.layer_name with
  | none => simp [classifyParcels, hln, classifyParcelsBody, h0]
  | some l =>
    have hl2 : l = "zona" ∨ l ∈ ["candil", "ml", "noroeste", "norte"] := by
      simpa [layerResolvable, hln] using hl
    rw [classifyParcels, hln]
    rcases hl2 with h | h <;> simp [h, classifyParcelsBody, h0]

/-- Witness for the amended NoImagery theorem at the concrete zero-scene
run. -/
theorem no_imagery_structured_error_witness :
    classifyParcels noImageryParams noImageryExternal =
      Except.error (noImageryResponse "2024-01-01" "2024-01-31") :=
  (no_imagery_structured_error noImageryParams noImageryExternal
    trivial rfl).1

/-- Claim C8 (amended): with a successful vectorization, the geojson
payload is included exactly when the feature count is strictly below 2000;
at or above 2000 the run still succeeds and only the payload is replaced by
the oversize warning. -/
theorem vectorization_cap_graceful (p : ClassifyParams) (e : ExternalData)
    (features : List ℕ) (hl : layerResolvable p) (h0 : ¬e.img_count = 0)
    (hv : e.vector_features = Except.ok features) :
    ∃ r, classifyParcels p e = Except.ok r ∧
      (features.length < 2000 →
        r.geojson = some features ∧ r.geojson_warning = none) ∧
      (2000 ≤ features.length →
        r.geojson = none ∧
        r.geojson_warning = some "GeoJSON muy grande, no incluido") := by
  have hwrap : classifyParcels p e = classifyParcelsBody p e := by
    cases hln : p.layer_name with
    | none => rw [classifyParcels, hln]
    | some l =>
      have hl2 : l = "zona" ∨ l ∈ ["candil", "ml", "noroeste", "norte"] := by
        simpa [layerResolvable, hln] using hl
      rw [classifyParcels, hln]
      rcases hl2 with h | h <;> simp [h]
  rw [hwrap]
  simp only [classifyParcelsBody, if_neg h0]
  refine ⟨_, rfl, ?_, ?_⟩
  · intro hlt
    refine ⟨?_, ?_⟩
    · show (geoPayload e.vector_features).1 = some features
      rw [hv]
      simp only [geoPayload]
      rw [if_pos hlt]
    · show (geoPayload e.vector_features).2.1 = none
      rw [hv]
      simp only [geoPayload]
      rw [if_pos hlt]
  · intro hge
    refine ⟨?_, ?_⟩
    · show (geoPayload e.vector_features).1 = none
      rw [hv]
      simp only [geoPayload]
      rw [if_neg (not_lt.mpr hge)]
    · show (geoPayload e.vector_features).2.1 =
        some "GeoJSON muy grande, no incluido"
      rw [hv]
      simp only [geoPayload]
      rw [if_neg (not_lt.mpr hge)]

/-- Parameters of the concrete oversize-vectorization run. -/
def capParams : ClassifyParams :=
  { start_date := "2024-01-01", end_date := "2024-01-31", layer_name := some "zona",
    max_cloud := 30, thresholds := defaultThresholds }

/-- The concrete 2000-feature vectorization output. -/
def capFeatures : List ℕ := List.replicate 2000 0

/-- The concrete feature list has exactly 2000 entries. -/
theorem capFeatures_length : capFeatures.length = 2000 := by
  rw [capFeatures, List.length_replicate]

/-- External data of the concrete oversize-vectorization run: exactly 2000
polygons come back. -/
def capExternal : ExternalData :=
  { img_count := 1, groups := [], area_total_m2 := 0,
    vector_features := Except.ok capFeatures, now := 0 }

/-- Claim C8 counterexample: a run whose vectorization yields exactly 2000
features, a count that does not exceed the 2000 cap, nevertheless gets its
geojson payload omitted and replaced by the oversize warning. -/
theorem vectorization_cap_counterexample :
    (classifyParcels capParams capExternal).map
        (fun r => (r.geojson, r.geojson_warning)) =
      Except.ok ((none : Option (List ℕ)),
        some "GeoJSON muy grande, no incluido") ∧
    ¬capFeatures.length > 2000 := by
  constructor
  · simp [classifyParcels, capParams, capExternal, classifyParcelsBody, geoPayload,
      Except.map, capFeatures_length]
  · simp [capFeatures_length]

/-- Projection to the fields of the ClassificationResult data model of the
spec: everything except the wall-clock `fecha_analisis` stamp. -/
def classificationResultView (r : ClassificationResponse) :
    String × ℚ × List (String × ClaseStats) × ResumenOut × ℕ × Parametros ×
      Option (List ℕ) × Option String × Option String :=
  (r.metodo, r.area_total_ha, r.clases, r.resumen, r.imagenes_procesadas,
    r.parametros, r.geojson, r.geojson_warning, r.geojson_error)

/-- Claim C9: `classify_parcels` is deterministic. With the same
parameters, scene set, grouped areas, geometry area and vectorization
outcome, two runs at different wall-clock instants agree on every
ClassificationResult field; only the clock flows into `fecha_analisis`,
which the data model of the spec does not include. -/
theorem classify_parcels_deterministic (p : ClassifyParams) (e : ExternalData)
    (t1 t2 : ℚ) :
    (classifyParcels p { e with now := t1 }).map classificationResultView =
      (classifyParcels p { e with now := t2 }).map classificationResultView := by
  have hbody :
      (classifyParcelsBody p { e with now := t1 }).map classificationResultView =
        (classifyParcelsBody p { e with now := t2 }).map classificationResultView := by
    by_cases h0 : e.img_count = 0
    · simp [classifyParcelsBody, h0]
    · simp [classifyParcelsBody, h0, classificationResultView, Except.map]
  cases hln : p.layer_name with
  | none =>
    simp only [classifyParcels, hln]
    exact hbody
  | some l =>
    simp only [classifyParcels, hln]
    by_cases hC : l = "zona" ∨ l ∈ ["candil", "ml", "noroeste", "norte"]
    · rw [if_pos hC, if_pos hC]
      exact hbody
    · rw [if_neg hC, if_neg hC]

/-- Two decimal rounding of zero is zero. -/
theorem round2_zero : round2 0 = 0 := by
  simp [round2]

/-- A fold of the summary accumulator never touches the healthy-crop field
when no group carries class id 0. -/
theorem foldl_resumen_field0 (gs : List (ℕ × ℚ)) (st : StatsResumen)
    (h : ∀ g ∈ gs, g.1 ≠ 0) :
    (gs.foldl updateResumen st).area_productiva_ha = st.area_productiva_ha := by
  induction gs generalizing st with
  | nil => rfl
  | cons g gs ih =>
    rw [List.foldl_cons, ih _ (fun x hx => h x (List.mem_cons_of_mem g hx))]
    have hg : g.1 ≠ 0 := h g (List.mem_cons_self g gs)
    simp only [updateResumen]
    split_ifs <;> first | exact absurd (by assumption) hg | rfl

/-- A fold of the summary accumulator never touches the stubble field when
no group carries class id 1. -/
theorem foldl_resumen_field1 (gs : List (ℕ × ℚ)) (st : StatsResumen)
    (h : ∀ g ∈ gs, g.1 ≠ 1) :
    (gs.foldl updateResumen st).area_vulnerable_ha = st.area_vulnerable_ha := by
  induction gs generalizing st with
  | nil => rfl
  | cons g gs ih =>
    rw [List.foldl_cons, ih _ (fun x hx => h x (List.mem_cons_of_mem g hx))]
    have hg : g.1 ≠ 1 := h g (List.mem_cons_self g gs)
    simp only [updateResumen]
    split_ifs <;> first | exact absurd (by assumption) hg | rfl

/-- A fold of the summary accumulator never touches the surface-water field
when no group carries class id 2. -/
theorem foldl_resumen_field2 (gs : List (ℕ × ℚ)) (st : StatsResumen)
    (h : ∀ g ∈ gs, g.1 ≠ 2) :
    (gs.foldl updateResumen st).area_agua_ha = st.area_agua_ha := by
  induction gs generalizing st with
  | nil => rfl
  | cons g gs ih =>
    rw [List.foldl_cons, ih _ (fun x hx => h x (List.mem_cons_of_mem g hx))]
    have hg : g.1 ≠ 2 := h g (List.mem_cons_self g gs)
    simp only [updateResumen]
    split_ifs <;> first | exact absurd (by assumption) hg | rfl

/-- A fold of the summary accumulator never touches the waterlogged field
when no group carries class id 3. -/
theorem foldl_resumen_field3 (gs : List (ℕ × ℚ)) (st : StatsResumen)
    (h : ∀ g ∈ gs, g.1 ≠ 3) :
    (gs.foldl updateResumen st).area_afectada_ha = st.area_afectada_ha := by
  induction gs generalizing st with
  | nil => rfl
  | cons g gs ih =>
    rw [List.foldl_cons, ih _ (fun x hx => h x (List.mem_cons_of_mem g hx))]
    have hg : g.1 ≠ 3 := h g (List.mem_cons_self g gs)
    simp only [updateResumen]
    split_ifs <;> first | exact absurd (by assumption) hg | rfl

/-- A fold of the summary accumulator never touches the bare-soil field
when no group carries class id 4. -/
theorem foldl_resumen_field4 (gs : List (ℕ × ℚ)) (st : StatsResumen)
    (h : ∀ g ∈ gs, g.1 ≠ 4) :
    (gs.foldl updateResumen st).area_suelo_desnudo_ha = st.area_suelo_desnudo_ha := by
  induction gs generalizing st with
  | nil => rfl
  | cons g gs ih =>
    rw [List.foldl_cons, ih _ (fun x hx => h x (List.mem_cons_of_mem g hx))]
    have hg : g.1 ≠ 4 := h g (List.mem_cons_self g gs)
    simp only [updateResumen]
    split_ifs <;> first | exact absurd (by assumption) hg | rfl

/-- Claim C10: a successful run over a region of zero computed area, or
one whose per-class area grouping came back empty (the fully masked
composite over a positive-area region), never divides by zero: every
per-class percentage and the problematic percentage come out as 0, through
the positivity guard in the first case and through the zero problematic
sum in the second, and every summary field whose class id is absent from
the grouped aggregation keeps its 0-hectare default. -/
theorem zero_area_no_division (p : ClassifyParams) (e : ExternalData)
    (r : ClassificationResponse) (hz : e.area_total_m2 = 0 ∨ e.groups = [])
    (hr : classifyParcels p e = Except.ok r) :
    (∀ entry ∈ r.clases, entry.2.porcentaje = 0) ∧
    r.resumen.porcentaje_problematico = 0 ∧
    ((∀ g ∈ e.groups, g.1 ≠ 0) → r.resumen.area_productiva_ha = 0) ∧
    ((∀ g ∈ e.groups, g.1 ≠ 1) → r.resumen.area_vulnerable_ha = 0) ∧
    ((∀ g ∈ e.groups, g.1 ≠ 2) → r.resumen.area_con_agua_ha = 0) ∧
    ((∀ g ∈ e.groups, g.1 ≠ 3) → r.resumen.area_anegada_ha = 0) ∧
    ((∀ g ∈ e.groups, g.1 ≠ 4) → r.resumen.area_suelo_desnudo_ha = 0) := by
  have hr2 : classifyParcelsBody p e = Except.ok r := by
    cases hln : p.layer_name with
    | none =>
      simp only [classifyParcels, hln] at hr
      exact hr
    | some l =>
      simp only [classifyParcels, hln] at hr
      by_cases hC : l = "zona" ∨ l ∈ ["candil", "ml", "noroeste", "norte"]
      · rwa [if_pos hC] at hr
      · rw [if_neg hC] at hr
        exact absurd hr (by simp)
  by_cases h0 : e.img_count = 0
  · rw [classifyParcelsBody, if_pos h0] at hr2
    exact absurd hr2 (by simp)
  simp only [classifyParcelsBody, if_neg h0] at hr2
  rw [Except.ok.injEq] at hr2
  subst hr2
  refine ⟨?_, ?_, ?_, ?_, ?_, ?_, ?_⟩
  · intro entry hm
    simp only [buildClases, List.mem_map] at hm
    obtain ⟨g, hg, rfl⟩ := hm
    rcases hz with hz | hz
    · simp [claseEntry, hz, round2_zero]
    · rw [hz] at hg
      exact absurd hg (List.not_mem_nil g)
  · rcases hz with hz | hz
    · simp [hz, round2_zero]
    · simp [hz, initStatsResumen, round2_zero, ite_self]
  · intro habs
    have h2 := foldl_resumen_field0 e.groups initStatsResumen habs
    simp only [h2]
    simp [initStatsResumen, round2_zero]
  · intro habs
    have h2 := foldl_resumen_field1 e.groups initStatsResumen habs
    simp only [h2]
    simp [initStatsResumen, round2_zero]
  · intro habs
    have h2 := foldl_resumen_field2 e.groups initStatsResumen habs
    simp only [h2]
    simp [initStatsResumen, round2_zero]
  · intro habs
    have h2 := foldl_resumen_field3 e.groups initStatsResumen habs
    simp only [h2]
    simp [initStatsResumen, round2_zero]
  · intro habs
    have h2 := foldl_resumen_field4 e.groups initStatsResumen habs
    simp only [h2]
    simp [initStatsResumen, round2_zero]

/-- Parameters of the concrete zero-area run. -/
def zeroAreaParams : ClassifyParams :=
  { start_date := "2024-02-01", end_date := "2024-02-15",
    layer_name := some "candil", max_cloud := 30, thresholds := defaultThresholds }

/-- External data of the concrete zero-area run: two scenes, an empty
grouping, zero geometry area and a failed vectorization call. -/
def zeroAreaExternal : ExternalData :=
  { img_count := 2, groups := [], area_total_m2 := 0,
    vector_features := Except.error "timeout", now := 7 }

/-- External data of the concrete fully-masked-composite run: two scenes,
an empty grouping over a region of positive geometry area. -/
def maskedCompositeExternal : ExternalData :=
  { img_count := 2, groups := [], area_total_m2 := 5000000,
    vector_features := Except.error "timeout", now := 7 }

/-- Witness for the zero-area theorem at both halves of its domain: the
concrete zero-area run and the concrete empty-grouping run over a
positive-area region both succeed and report a problematic percentage of
0. -/
theorem zero_area_no_division_witness :
    (classifyParcels zeroAreaParams zeroAreaExternal).map
        (fun r => r.resumen.porcentaje_problematico) = Except.ok 0 ∧
    (classifyParcels zeroAreaParams maskedCompositeExternal).map
        (fun r => r.resumen.porcentaje_problematico) = Except.ok 0 := by
  constructor
  · cases hr : classifyParcels zeroAreaParams zeroAreaExternal with
    | error err =>
      exact absurd hr (by simp [classifyParcels, zeroAreaParams, zeroAreaExternal,
        classifyParcelsBody])
    | ok r =>
      have h := (zero_area_no_division zeroAreaParams zeroAreaExternal r
        (Or.inl rfl) hr).2.1
      simp [hr, h, Except.map]
  · cases hr : classifyParcels zeroAreaParams maskedCompositeExternal with
    | error err =>
      exact absurd hr (by simp [classifyParcels, zeroAreaParams,
        maskedCompositeExternal, classifyParcelsBody])
    | ok r =>
      have h := (zero_area_no_division zeroAreaParams maskedCompositeExternal r
        (Or.inr rfl) hr).2.1
      simp [hr, h, Except.map]

/-- The per-watershed subset stored by `classify_parcels_by_cuenca` for a
successful classification. -/
structure CuencaData where
  area_total_ha : ℚ
  clases : List (String × ClaseStats)
  resumen : ResumenOut

/-- Projection of a successful response to its stored subset. -/
def cuencaSubset (r : ClassificationResponse) : CuencaData :=
  { area_total_ha := r.area_total_ha, clases := r.clases, resumen := r.resumen }

/-- One entry of the criticality ranking. -/
structure RankEntry where
  cuenca : String
  porcentaje_problematico : ℚ
  area_anegada_ha : ℚ

/-- The ranking entry of one successful watershed. -/
def mkRankEntry (nd : String × CuencaData) : RankEntry :=
  { cuenca := nd.1,
    porcentaje_problematico := nd.2.resumen.porcentaje_problematico,
    area_anegada_ha := nd.2.resumen.area_anegada_ha }

/-- Descending comparison on the problematic percentage, the key of
`cuencas_ranking.sort(..., reverse=True)`. -/
def rankingGe (a b : RankEntry) : Prop :=
  b.porcentaje_problematico ≤ a.porcentaje_problematico

instance : DecidableRel rankingGe :=
  fun a b =>
    inferInstanceAs (Decidable (b.porcentaje_problematico ≤ a.porcentaje_problematico))

instance : IsTotal RankEntry rankingGe :=
  ⟨fun a b => le_total b.porcentaje_problematico a.porcentaje_problematico⟩

instance : IsTrans RankEntry rankingGe :=
  ⟨fun _ _ _ hab hbc => le_trans hbc hab⟩

/-- The per-watershed filter of the loop: watersheds whose classification
returned an error dict are skipped. -/
def successOnly
    (nr : String × Except (List (String × String)) ClassificationResponse) :
    Option (String × CuencaData) :=
  match nr.2 with
  | Except.ok r => some (nr.1, cuencaSubset r)
  | Except.error _ => none

/-- The response of `classify_parcels_by_cuenca`. -/
structure ByCuencaResponse where
  cuencas : List (String × CuencaData)
  ranking_criticidad : List RankEntry

/-- The body of `classify_parcels_by_cuenca` (lines 550-592): the four
per-watershed classification outcomes arrive as input (each inner
`classify_parcels` call is an independent invocation), failed watersheds
are dropped, and the ranking over the survivors is sorted by problematic
percentage, largest first, with the stable Python sort. -/
def classifyParcelsByCuenca
    (outcomes : List (String × Except (List (String × String)) ClassificationResponse)) :
    ByCuencaResponse :=
  let resultados := outcomes.filterMap successOnly
  { cuencas := resultados,
    ranking_criticidad := List.insertionSort rankingGe (resultados.map mkRankEntry) }

/-- Claim C7: a failed watershed does not abort the batch: every
successful watershed appears in the result, everything in the result comes
from a successful watershed, and the criticality ranking is a permutation
of the ranking entries of exactly the surviving watersheds, sorted in
descending order of problematic percentage. -/
theorem by_cuenca_partial_failure
    (outcomes : List (String × Except (List (String × String)) ClassificationResponse)) :
    (∀ n r, (n, Except.ok r) ∈ outcomes →
      (n, cuencaSubset r) ∈ (classifyParcelsByCuenca outcomes).cuencas) ∧
    (∀ n d, (n, d) ∈ (classifyParcelsByCuenca outcomes).cuencas →
      ∃ r, (n, Except.ok r) ∈ outcomes ∧ d = cuencaSubset r) ∧
    List.Perm (classifyParcelsByCuenca outcomes).ranking_criticidad
      ((classifyParcelsByCuenca outcomes).cuencas.map mkRankEntry) ∧
    List.Sorted rankingGe (classifyParcelsByCuenca outcomes).ranking_criticidad := by
  refine ⟨?_, ?_, ?_, ?_⟩
  · intro n r h
    simp only [classifyParcelsByCuenca]
    exact List.mem_filterMap.mpr ⟨(n, Except.ok r), h, by simp [successOnly]⟩
  · intro n d h
    simp only [classifyParcelsByCuenca] at h
    obtain ⟨⟨n2, res⟩, hmem, hs⟩ := List.mem_filterMap.mp h
    cases res with
    | ok r =>
      simp only [successOnly] at hs
      rw [Option.some.injEq, Prod.mk.injEq] at hs
      obtain ⟨rfl, rfl⟩ := hs
      exact ⟨r, hmem, rfl⟩
    | error err => simp [successOnly] at hs
  · exact List.perm_insertionSort rankingGe _
  · exact List.sorted_insertionSort rankingGe _

/-- A concrete successful classification response used by the witness. -/
def sampleResponse : ClassificationResponse :=
  { metodo := "clasificacion_parcelas_multiindice", area_total_ha := 100,
    clases := [],
    resumen := { area_productiva_ha := 60, area_vulnerable_ha := 30,
                 area_con_agua_ha := 4, area_anegada_ha := 6,
                 area_suelo_desnudo_ha := 0, area_problematica_ha := 10,
                 porcentaje_problematico := 10 },
    imagenes_procesadas := 3,
    parametros := { start_date := "2024-01-01", end_date := "2024-01-31",
                    max_cloud := 30, layer_name := some "norte",
                    umbrales := echoUmbrales defaultThresholds },
    fecha_analisis := 0, geojson := none, geojson_warning := none,
    geojson_error := none }

/-- Witness for the by-cuenca theorem: with one failed and one successful
watershed, the successful one survives into the result. -/
theorem by_cuenca_partial_failure_witness :
    ("norte", cuencaSubset sampleResponse) ∈
      (classifyParcelsByCuenca
        [("candil", Except.error (noImageryResponse "2024-01-01" "2024-01-31")),
         ("norte", Except.ok sampleResponse)]).cuencas :=
  (by_cuenca_partial_failure
    [("candil", Except.error (noImageryResponse "2024-01-01" "2024-01-31")),
     ("norte", Except.ok sampleResponse)]).1 "norte" sampleResponse (by simp)

/-- Witness for the amended vectorization-cap theorem at the concrete
2000-feature run: the payload is omitted while the call still succeeds. -/
theorem vectorization_cap_graceful_witness :
    (classifyParcels capParams capExternal).map (fun r => r.geojson) =
      Except.ok (none : Option (List ℕ)) := by
  obtain ⟨r, hr, hlt, hge⟩ :=
    vectorization_cap_graceful capParams capExternal capFeatures
      (by simp [layerResolvable, capParams]) (by simp [capExternal]) rfl
  have h := (hge (le_of_eq capFeatures_length.symm)).1
  simp [hr, h, Except.map]
